import Mathlib

/-!
Verification development for the wrench contact detector node
(`script/contact_detection/contact_detection_action_server.py`).

The node-side behaviour (`__init__`, `_reset_callback`, `_execute_cb`,
`_wrench_callback`) is embedded from the Python source.  The signal-analysis
component (`SignalAnalysis` from the `ar_signal_processing` package) is not
part of this repository's sources; it is modelled from the specification's
observable contract (data model, component design and state machine).
Numeric signal values are modelled as rationals.
-/

namespace ContactDetector

/-- Modelled from the spec: the immutable configuration of the analyzer
(`ClassifierConfig`): dimension, calibration window length, deviation
threshold and metric selector.  These are exactly the keyword arguments the
node passes to the `SignalAnalysis` constructor. -/
structure AnalyzerConfig where
  size : Nat
  num_sample_init : Nat
  deviation_max : ℚ
  use_max_force : Bool
  deriving DecidableEq

/-- Modelled from the spec: the mutable analyzer state (`AnalysisState` plus
`Baseline`): sample count, per-dimension running mean, per-dimension spread
accumulator (running sum of squared deviations, from which the standard
deviation derives), the latched violation flag, the last computed deviation
(nullable until the first post-calibration evaluation) and the last raw
observation (nullable until the first sample). -/
structure Analysis where
  cfg : AnalyzerConfig
  count : Nat
  mean : List ℚ
  m2 : List ℚ
  std_violation : Bool
  deviation : Option ℚ
  last_data : Option (List ℚ)
  deriving DecidableEq

/-- Initial analyzer state: empty/zero baseline, no violation, no deviation,
no data yet. -/
def Analysis.init (cfg : AnalyzerConfig) : Analysis :=
  ⟨cfg, 0, List.replicate cfg.size 0, List.replicate cfg.size 0, false, none, none⟩

/-- Executable maximum of two rationals. -/
def rmax (a b : ℚ) : ℚ := if a ≤ b then b else a

/-- Executable absolute value of a rational. -/
def rabs (x : ℚ) : ℚ := if x < 0 then -x else x

/-- Modelled from the spec: the deviation metrics take the maximum over
dimensions of an absolute value. -/
def maxAbs (v : List ℚ) : ℚ := (v.map rabs).foldr rmax 0

/-- Modelled from the spec: one incremental (online) update of the running
per-dimension mean and spread accumulator with a new observation
(Welford-style, O(N) memory). -/
def statsUpdate (c : Nat) (mean m2 obs : List ℚ) : List ℚ × List ℚ :=
  let n1 : ℚ := (c : ℚ) + 1
  let delta := List.zipWith (fun x m => x - m) obs mean
  let mean2 := List.zipWith (fun m d => m + d / n1) mean delta
  let delta2 := List.zipWith (fun x m => x - m) obs mean2
  (mean2, List.zipWith (fun p q => p + q) m2 (List.zipWith (fun a b => a * b) delta delta2))

/-- Modelled from the spec: `process(observation)` stores the observation as
the last observation; while the baseline is not yet calibrated it feeds the
observation into the running statistics and leaves deviation/violation
unchanged; once calibrated it classifies the observation (max-force metric:
max of absolute components; statistical metric: max of absolute distances
from the baseline mean), stores the deviation, and latches the violation
flag: once true it stays true until explicitly cleared. -/
def Analysis.process (s : Analysis) (obs : List ℚ) : Analysis :=
  if s.count < s.cfg.num_sample_init then
    let p := statsUpdate s.count s.mean s.m2 obs
    { s with last_data := some obs, count := s.count + 1, mean := p.1, m2 := p.2 }
  else
    let dev := if s.cfg.use_max_force then maxAbs obs
               else maxAbs (List.zipWith (fun x m => x - m) obs s.mean)
    { s with last_data := some obs,
             deviation := some dev,
             std_violation := s.std_violation || decide (s.cfg.deviation_max < dev) }

/-- Modelled from the spec: `clear_std()` resets the baseline to its initial
empty/zero state and clears the sample count, forcing recalibration, while
leaving the violation/deviation fields untouched. -/
def Analysis.clear_std (s : Analysis) : Analysis :=
  { s with count := 0,
           mean := List.replicate s.cfg.size 0,
           m2 := List.replicate s.cfg.size 0 }

/-- Modelled from the spec: `clear_detection()` resets the violation flag to
false and the deviation to unset, without touching the baseline. -/
def Analysis.clear_detection (s : Analysis) : Analysis :=
  { s with std_violation := false, deviation := none }

/-- Modelled from the spec: the baseline-mean accessor is nullable until the
analyzer is calibrated. -/
def Analysis.meanAcc (s : Analysis) : Option (List ℚ) :=
  if s.cfg.num_sample_init ≤ s.count then some s.mean else none

/-- The ROS parameter server as seen by the node: a lookup from parameter
name to an optional value, one lookup map per value type. -/
structure ParamServer where
  boolParams : String → Option Bool
  ratParams : String → Option ℚ
  natParams : String → Option Nat

/-- Embeds `WrenchContactDetectorNode.__init__` (source lines 28-52): the
metric selector is read from `~use_max_force` with default `False`; when it
is true the threshold is read from `~max_force` with default `2.0`;
otherwise the threshold is the literal `30`.  The dimension is the literal
`6` and the calibration window length is the literal `500` in both
branches. -/
def node_init (p : ParamServer) : AnalyzerConfig :=
  let max_force := (p.boolParams "~use_max_force").getD false
  if max_force then
    AnalyzerConfig.mk 6 500 ((p.ratParams "~max_force").getD 2) true
  else
    AnalyzerConfig.mk 6 500 30 false

/-- Number of parameters of `_reset_callback` besides `self` (source line 67:
the callback is declared as taking only `self`). -/
def reset_callback_extra_params : Nat := 0

/-- The body of `_reset_callback` (source line 71). -/
def reset_callback_body (s : Analysis) : Analysis := s.clear_std

/-- Delivery of a message on the `wrench_reset` topic: rospy calls the
subscriber callback with the message as one positional argument; a Python
call whose positional argument count does not match the function's
signature raises `TypeError` before the body runs. -/
def deliver_reset (s : Analysis) : Except String Analysis :=
  if reset_callback_extra_params = 1 then Except.ok (reset_callback_body s)
  else Except.error "TypeError"

/-- The fields of a `DetectContact` action goal used by `_execute_cb`. -/
structure Goal where
  frequency : ℚ
  do_noise_calibration : Bool
  finish_on_contact : Bool
  deriving DecidableEq

/-- The `DetectContactFeedback` message: violation flag, deviation (a plain
float, `0.0` when the analyzer's deviation is unset), and the mean wrench
(`none` models the never-assigned message default). -/
structure Feedback where
  is_in_contact : Bool
  deviation : ℚ
  mean_wrench : Option (List ℚ)
  deriving DecidableEq

/-- The feedback at loop entry: `is_in_contact` is set to `False` at source
line 88, the remaining fields hold the message defaults. -/
def Feedback.init : Feedback := ⟨false, 0, none⟩

/-- The `DetectContactResult` message; `wrench` is `none` when
`_last_data` was `None` and the field kept its message default. -/
structure SessionResult where
  is_in_contact : Bool
  deviation : ℚ
  wrench : Option (List ℚ)
  deriving DecidableEq

/-- The terminal report of one action execution. -/
inductive Outcome where
  | preempted : Outcome
  | succeeded : SessionResult → Outcome
  | aborted : SessionResult → Outcome
  deriving DecidableEq

/-- The two analyzer mutators the session controller can invoke. -/
inductive AnalyzerOp where
  | clearStd : AnalyzerOp
  | clearDetection : AnalyzerOp
  deriving DecidableEq

/-- Embeds the analyzer calls `_execute_cb` makes before its polling loop
(source lines 84-92): `clear_std()` exactly when the goal sets
`do_noise_calibration`, then `clear_detection()`.  Returns the resulting
analyzer state together with the trace of calls in order. -/
def prologue (g : Goal) (s : Analysis) : Analysis × List AnalyzerOp :=
  let p := if g.do_noise_calibration then (s.clear_std, [AnalyzerOp.clearStd]) else (s, [])
  (p.1.clear_detection, p.2 ++ [AnalyzerOp.clearDetection])

/-- The analyzer fields read by one loop iteration (source lines 94-101):
`_std_violation`, `_deviation` and `_mean`. -/
structure Snapshot where
  std_violation : Bool
  deviation : Option ℚ
  mean : Option (List ℚ)
  deriving DecidableEq

/-- Embeds source lines 94-101: the feedback built from the snapshot.
`deviation` becomes `0.0` when the analyzer's deviation is `None`;
`mean_wrench` is only assigned when the analyzer's mean is not `None`,
otherwise it keeps its previous value. -/
def mkFeedback (prev : Feedback) (snap : Snapshot) : Feedback :=
  { is_in_contact := snap.std_violation
  , deviation := snap.deviation.getD 0
  , mean_wrench := match snap.mean with
      | some m => some m
      | none => prev.mean_wrench }

/-- The external observations of one loop iteration: the snapshot read at the
top, the results of the two separate `is_preempt_requested()` calls (source
lines 103 and 109), and the shutdown flag (source line 109). -/
structure IterEnv where
  snap : Snapshot
  preempt_at_publish : Bool
  preempt_at_check : Bool
  shutdown : Bool
  deriving DecidableEq

/-- Embeds one iteration of the while-loop body (source lines 93-112):
builds the feedback from the snapshot, publishes it unless preemption is
requested at the publish check, and decides loop exit: immediately when
`finish_on_contact` is set and the feedback flags contact, otherwise when
preemption is requested or the process is shutting down.  Returns the
feedback, the published message (if any) and the exit decision. -/
def loopStep (g : Goal) (prev : Feedback) (e : IterEnv) : Feedback × Option Feedback × Bool :=
  let fb := mkFeedback prev e.snap
  let pub := if e.preempt_at_publish then none else some fb
  let endl := if g.finish_on_contact && fb.is_in_contact then true
              else e.preempt_at_check || e.shutdown
  (fb, pub, endl)

/-- Embeds the post-loop report (source lines 117-129): when preemption is
requested the action is set preempted with no result; otherwise the result
carries the final feedback's violation flag and deviation and the
analyzer's last raw observation, and the action is set succeeded when the
flag is true and aborted (still carrying the result) when it is false. -/
def epilogue (preempt : Bool) (fb : Feedback) (last : Option (List ℚ)) : Outcome :=
  if preempt then Outcome.preempted
  else
    let r : SessionResult := ⟨fb.is_in_contact, fb.deviation, last⟩
    if r.is_in_contact then Outcome.succeeded r else Outcome.aborted r

/-- An event of the reader/writer interleaving: the session loop reads the
three analyzer fields one at a time (source lines 94-101) while
`_wrench_callback` (source line 135) may run `process` on the analyzer
between any two of those reads.  No lock is taken by either side. -/
inductive Ev where
  | rdViol : Ev
  | rdDev : Ev
  | rdMean : Ev
  | wr : List ℚ → Ev
  deriving DecidableEq

/-- Executes a schedule of reader and writer events against the shared
analyzer state and the reader's feedback message, returning both. -/
def interleave : Analysis → Feedback → List Ev → Analysis × Feedback
  | s, fb, [] => (s, fb)
  | s, fb, Ev.rdViol :: r => interleave s { fb with is_in_contact := s.std_violation } r
  | s, fb, Ev.rdDev :: r => interleave s { fb with deviation := s.deviation.getD 0 } r
  | s, fb, Ev.rdMean :: r =>
      interleave s { fb with mean_wrench := match s.meanAcc with
                      | some m => some m
                      | none => fb.mean_wrench } r
  | s, fb, Ev.wr obs :: r => interleave (s.process obs) fb r

/-- The analyzer states reached along a schedule (including the initial
one): every snapshot any atomic read could have come from. -/
def statesAlong (s : Analysis) : List Ev → List Analysis
  | [] => [s]
  | Ev.wr obs :: r => s :: statesAlong (s.process obs) r
  | _ :: r => s :: statesAlong s r

/-- Concrete parameter server for C5: an operator configures a calibration
window of 100; the node reads no window parameter at all. -/
def pC5 : ParamServer :=
  ⟨fun _ => none, fun _ => none,
   fun k => if k = "~num_sample_init" then some 100 else none⟩

/-- Concrete goal for the C4 counterexample. -/
def gC4 : Goal := ⟨1, false, false⟩

/-- Concrete iteration environment for the C4 counterexample: preemption has
been requested by the time the iteration runs. -/
def envC4 : IterEnv := ⟨⟨false, none, none⟩, true, true, false⟩

/-- Concrete analyzer state for the C6 witness: calibrated (window length 0),
max-force metric with threshold 1, violation already latched. -/
def sC6 : Analysis := ⟨⟨1, 0, 1, true⟩, 0, [0], [0], true, none, none⟩

/-- Analyzer configuration for the C8 schedule: dimension 1, calibration
window 0 (already calibrated), threshold 1, max-force metric. -/
def cfgW : AnalyzerConfig := ⟨1, 0, 1, true⟩

/-- Initial analyzer state for the C8 schedule. -/
def sW0 : Analysis := Analysis.init cfgW

/-- The C8 schedule: the writer processes a quiet sample, the reader reads
the violation flag, the writer processes a violating sample, the reader
reads the deviation. -/
def schedW : List Ev := [Ev.wr [0], Ev.rdViol, Ev.wr [5], Ev.rdDev]

/-- Snapshot with all analyzer fields set, for the C9 witness. -/
def snapC9a : Snapshot := ⟨true, some 7, some [1, 2, 3, 4, 5, 6]⟩

/-- Snapshot with deviation and mean unset, for the C9 witness. -/
def snapC9b : Snapshot := ⟨false, none, none⟩

/-- C1: the claim states that every message on the reset topic causes
`clear_std()` to run and the callback to complete without error.  On the
code, `_reset_callback` is declared without a message parameter, so rospy's
delivery call raises `TypeError` before the body runs and `clear_std()` is
never invoked. -/
theorem C1_reset_delivery_raises (s : Analysis) :
    deliver_reset s = Except.error "TypeError" := rfl

/-- C2: before the polling loop the controller's analyzer-call trace ends
with `clear_detection()`, the calls before it contain `clear_std()` exactly
when the goal requested noise calibration and contain no `clear_detection()`,
and the resulting analyzer state is the corresponding composition. -/
theorem C2_prologue_order (g : Goal) (s : Analysis) :
    ∃ pre, (prologue g s).2 = pre ++ [AnalyzerOp.clearDetection] ∧
      ((AnalyzerOp.clearStd ∈ pre) ↔ g.do_noise_calibration = true) ∧
      pre.count AnalyzerOp.clearDetection = 0 ∧
      (prologue g s).1 =
        Analysis.clear_detection (if g.do_noise_calibration then s.clear_std else s) := by
  cases h : g.do_noise_calibration
  · exact ⟨[], by simp [prologue, h]⟩
  · exact ⟨[AnalyzerOp.clearStd], by simp [prologue, h]⟩

/-- C3: when preemption is requested by the time the loop exits, the action
is reported preempted with no result, whatever the final feedback says;
otherwise the reported result carries the final violation flag, the final
deviation and the analyzer's last raw observation. -/
theorem C3_final_report (fb : Feedback) (last : Option (List ℚ)) :
    epilogue true fb last = Outcome.preempted ∧
    (epilogue false fb last =
        Outcome.succeeded ⟨fb.is_in_contact, fb.deviation, last⟩ ∨
     epilogue false fb last =
        Outcome.aborted ⟨fb.is_in_contact, fb.deviation, last⟩) := by
  refine ⟨rfl, ?_⟩
  cases h : fb.is_in_contact <;> simp [epilogue, h]

/-- C4 counterexample: the claim states every iteration publishes progress;
on an iteration where preemption has been requested the code publishes
nothing (and the loop exits). -/
theorem C4_publish_counterexample :
    (loopStep gC4 Feedback.init envC4).2.1 = none ∧
    (loopStep gC4 Feedback.init envC4).2.2 = true := by decide

/-- C4 amended: the loop exits exactly when contact is flagged and the goal
requested stop-on-contact, or preemption was requested at the exit check,
or the process is shutting down; the iteration publishes the feedback built
from the snapshot exactly when preemption was not requested at the publish
check. -/
theorem C4_loop_amended (g : Goal) (prev : Feedback) (e : IterEnv) :
    ((loopStep g prev e).2.2 = true ↔
       (g.finish_on_contact = true ∧ e.snap.std_violation = true) ∨
       e.preempt_at_check = true ∨ e.shutdown = true) ∧
    (loopStep g prev e).2.1 =
      (if e.preempt_at_publish then none else some (mkFeedback prev e.snap)) := by
  constructor
  · cases hf : g.finish_on_contact <;> cases hv : e.snap.std_violation <;>
      cases hp : e.preempt_at_check <;> cases hs : e.shutdown <;>
        simp [loopStep, mkFeedback, hf, hv, hp, hs]
  · rfl

/-- C5 counterexample: the claim states the calibration window size is read
from configuration; a configured window of 100 is ignored and the node
always constructs the analyzer with window 500. -/
theorem C5_window_counterexample :
    pC5.natParams "~num_sample_init" = some 100 ∧
    (node_init pC5).num_sample_init = 500 ∧ (100 : Nat) ≠ 500 := by decide

/-- C5 amended: only the metric selector (default false) and, when the
max-force metric is selected, the deviation threshold (default 2.0) are
read from configuration; the calibration window size is always 500 and the
statistical-mode threshold is always 30. -/
theorem C5_config_amended (p : ParamServer) :
    (node_init p).use_max_force = (p.boolParams "~use_max_force").getD false ∧
    (node_init p).num_sample_init = 500 ∧
    (node_init p).size = 6 ∧
    (node_init p).deviation_max =
      (if (p.boolParams "~use_max_force").getD false
       then (p.ratParams "~max_force").getD 2 else 30) := by
  cases h : (p.boolParams "~use_max_force").getD false <;> simp [node_init, h]

/-- C6: once the violation flag is latched, processing any further
observation keeps it true, `clear_std()` keeps it true, and only
`clear_detection()` returns it to false. -/
theorem C6_violation_latch (s : Analysis) (obs : List ℚ)
    (h : s.std_violation = true) :
    (s.process obs).std_violation = true ∧
    (s.clear_std).std_violation = true ∧
    (s.clear_detection).std_violation = false := by
  refine ⟨?_, h, rfl⟩
  unfold Analysis.process
  split <;> simp [h]

/-- Witness for C6 at a concrete latched state and observation. -/
theorem C6_violation_latch_witness :
    sC6.std_violation = true ∧
    ((sC6.process [2]).std_violation = true ∧
     (sC6.clear_std).std_violation = true ∧
     (sC6.clear_detection).std_violation = false) :=
  ⟨rfl, C6_violation_latch sC6 [2] rfl⟩

/-- C7: `clear_detection()` resets the violation flag to false and the
deviation to unset while leaving the baseline fields (running mean, spread
accumulator, sample count) unchanged. -/
theorem C7_clear_detection_frame (s : Analysis) :
    (s.clear_detection).std_violation = false ∧
    (s.clear_detection).deviation = none ∧
    (s.clear_detection).mean = s.mean ∧
    (s.clear_detection).m2 = s.m2 ∧
    (s.clear_detection).count = s.count :=
  ⟨rfl, rfl, rfl, rfl, rfl⟩

/-- C8: the claim states no interleaving exposes a feedback mixing fields
from two different observations.  With no lock anywhere, the schedule
`schedW` leaves the reader with violation flag false and deviation 5, a
pair that no analyzer state reached during the run exhibits (every state
with deviation 5 has the flag latched true). -/
theorem C8_torn_read :
    (interleave sW0 Feedback.init schedW).2.is_in_contact = false ∧
    (interleave sW0 Feedback.init schedW).2.deviation = 5 ∧
    (statesAlong sW0 schedW).all
      (fun t => t.std_violation || !(t.deviation == some (5 : ℚ))) = true := by decide

/-- C9: in every feedback built by the loop, the deviation field equals the
analyzer's deviation when it is set and exactly 0 when it is unset, and
the mean-wrench field is assigned from the analyzer's mean when that is
set and otherwise keeps its previous value. -/
theorem C9_feedback_option_handling (prev : Feedback) (snap : Snapshot) :
    (∀ d : ℚ, snap.deviation = some d → (mkFeedback prev snap).deviation = d) ∧
    (snap.deviation = none → (mkFeedback prev snap).deviation = 0) ∧
    (∀ m : List ℚ, snap.mean = some m → (mkFeedback prev snap).mean_wrench = some m) ∧
    (snap.mean = none → (mkFeedback prev snap).mean_wrench = prev.mean_wrench) := by
  refine ⟨fun d hd => ?_, fun hd => ?_, fun m hm => ?_, fun hm => ?_⟩ <;>
    simp [mkFeedback, *]

/-- Witness for C9 at concrete snapshots, one with all fields set and one
with deviation and mean unset. -/
theorem C9_feedback_option_handling_witness :
    snapC9a.deviation = some 7 ∧ snapC9b.deviation = none ∧
    snapC9a.mean = some [1, 2, 3, 4, 5, 6] ∧ snapC9b.mean = none ∧
    (mkFeedback Feedback.init snapC9a).deviation = 7 ∧
    (mkFeedback Feedback.init snapC9b).deviation = 0 ∧
    (mkFeedback Feedback.init snapC9a).mean_wrench = some [1, 2, 3, 4, 5, 6] ∧
    (mkFeedback Feedback.init snapC9b).mean_wrench = Feedback.init.mean_wrench :=
  ⟨rfl, rfl, rfl, rfl,
   (C9_feedback_option_handling Feedback.init snapC9a).1 7 rfl,
   (C9_feedback_option_handling Feedback.init snapC9b).2.1 rfl,
   (C9_feedback_option_handling Feedback.init snapC9a).2.2.1 _ rfl,
   (C9_feedback_option_handling Feedback.init snapC9b).2.2.2 rfl⟩

/-- C10: for a session that completes without preemption, the action is
reported succeeded carrying the result exactly when the final violation
flag is true, and aborted still carrying the result exactly when it is
false. -/
theorem C10_outcome_iff (fb : Feedback) (last : Option (List ℚ)) :
    (epilogue false fb last =
        Outcome.succeeded ⟨fb.is_in_contact, fb.deviation, last⟩ ↔
      fb.is_in_contact = true) ∧
    (epilogue false fb last =
        Outcome.aborted ⟨fb.is_in_contact, fb.deviation, last⟩ ↔
      fb.is_in_contact = false) := by
  cases h : fb.is_in_contact <;> simp [epilogue, h]

end ContactDetector
